import Mathlib

/-!
Verification of the concurrent PokéAPI crawler (`index-poké.py`).

The crawler keeps its frontier in a Redis sorted set (`poké:pending`),
dedup state in two Redis sets (`poké:completed`, `poké:failed`), scraped
records under `poké:data:*`, and process statistics in a lock-protected
dict.  We embed this state as a pure `CrawlState` and the operations
(`_calculate_url_score`, `add_new_urls`, `scrape_url`, one iteration of
`worker_thread`, `initialize_redis`) as pure functions.  Concurrency is
modelled as a sequential interleaving of whole worker iterations: each
iteration consumes an environment (`IterEnv`) carrying the wall-clock
readings, the HTTP outcomes for each attempt, or a raised exception.
Python floats in the score formula are modelled as exact rationals
(`0.001` becomes `1/1000`); the magnitudes involved are far inside the
range where float64 arithmetic agrees with the rational ordering facts
proved here.  JSON payloads are abstracted to the two observations the
code makes of them: Python truthiness (`if data:`) and the URL list
produced by `extract_urls_from_response`.
-/

namespace PokeCrawl

/-- Character-level prefix test, used by the replace embedding. -/
def startsWithChars : List Char → List Char → Bool
  | [], _ => true
  | _ :: _, [] => false
  | c :: cs, d :: ds => c = d && startsWithChars cs ds

/-- Left-to-right non-overlapping replacement on character lists, the
semantics of Python `str.replace` for a non-empty pattern; `fuel` is the
length of the subject string. -/
def replaceChars (pat rep : List Char) : ℕ → List Char → List Char
  | 0, s => s
  | _ + 1, [] => []
  | fuel + 1, c :: rest =>
    if pat ≠ [] ∧ startsWithChars pat (c :: rest) then
      rep ++ replaceChars pat rep fuel ((c :: rest).drop pat.length)
    else
      c :: replaceChars pat rep fuel rest

/-- Python `url.replace(pat, rep)` (callers never pass an empty pattern). -/
def py_replace (s pat rep : String) : String :=
  String.mk (replaceChars pat.data rep.data s.data.length s.data)

/-- Python `str.split` with a single-character separator: keeps empty
fields and returns `[""]` on the empty string. -/
def splitChars (sep : Char) : List Char → List (List Char)
  | [] => [[]]
  | c :: rest =>
    match splitChars sep rest with
    | [] => if c = sep then [[], []] else [[c]]
    | h :: t => if c = sep then [] :: h :: t else (c :: h) :: t

/-- Python `s.split(sep)` for a one-character separator. -/
def py_split (s : String) (sep : Char) : List String :=
  (splitChars sep s.data).map String.mk

/-- The `type_priorities` table of `_calculate_url_score`; unknown
resource types get priority 9. -/
def type_priorities (t : String) : ℕ :=
  if t = "films" then 1
  else if t = "people" then 2
  else if t = "planets" then 3
  else if t = "starships" then 4
  else if t = "vehicles" then 4
  else if t = "species" then 5
  else 9

/-- Resource-type extraction of `_calculate_url_score`:
`url.replace(self.root_url, "").split("/")` and take element 0 (Python
`split` never returns an empty list, so the `else "unknown"` arm of
`url_parts[0] if url_parts else "unknown"` is dead; `headD` mirrors it). -/
def resource_type (root url : String) : String :=
  (py_split (py_replace url root "") '/').headD "unknown"

/-- The score formula of `_calculate_url_score`:
`(type_priority * 100) + (depth * 10) + (counter * 0.001)`, with the
float literal `0.001` modelled as the exact rational `1/1000`.  The
counter argument is the value of `self.url_counter` after the increment
performed inside `_calculate_url_score`. -/
def calculate_url_score (root url : String) (depth counter : ℕ) : ℚ :=
  (type_priorities (resource_type root url) : ℚ) * 100 + (depth : ℚ) * 10
    + (counter : ℚ) / 1000

/-- Python `%` on nonnegative floats: `x - y * floor (x / y)`. -/
def pymod (x y : ℚ) : ℚ := x - y * ⌊x / y⌋

/-- The worker's depth recovery `int((score % 100) // 10)`; the value of
`(score % 100) // 10` is a nonnegative integral float, so `int` is the
identity on it and the whole expression is the floor below. -/
def recovered_depth (score : ℚ) : ℤ := ⌊pymod score 100 / 10⌋

/-! Redis model: the sorted set `poké:pending` as an association list
with unique keys, the plain sets as `List String`. -/

/-- Redis ZSCORE on the pending sorted set. -/
def zscore : List (String × ℚ) → String → Option ℚ
  | [], _ => none
  | (v, t) :: rest, u => if v = u then some t else zscore rest u

/-- Redis ZADD: update the member's score, or append the member. -/
def zadd : List (String × ℚ) → String → ℚ → List (String × ℚ)
  | [], u, s => [(u, s)]
  | (v, t) :: rest, u, s =>
    if v = u then (u, s) :: rest else (v, t) :: zadd rest u s

/-- Removal of a member from the sorted set (keys are unique, so
filtering equals deleting the one binding). -/
def zrem (l : List (String × ℚ)) (u : String) : List (String × ℚ) :=
  l.filter (fun q => decide (q.1 ≠ u))

/-- The member with the least score, ties broken by the lexicographically
least member, as Redis ZPOPMIN orders a sorted set. -/
def findMin : List (String × ℚ) → Option (String × ℚ)
  | [] => none
  | p :: ps =>
    match findMin ps with
    | none => some p
    | some q => some (if q.2 < p.2 ∨ (q.2 = p.2 ∧ q.1 < p.1) then q else p)

/-- Redis `ZPOPMIN key 1`: the least item and the remaining set. -/
def zpopmin (l : List (String × ℚ)) : Option ((String × ℚ) × List (String × ℚ)) :=
  match findMin l with
  | none => none
  | some p => some (p, zrem l p.1)

/-- Redis SADD on a set modelled as a duplicate-free list. -/
def sadd (l : List String) (u : String) : List String :=
  if u ∈ l then l else l ++ [u]

/-- The crawler state: the three Redis keys, the data records (keyed by
URL; record contents are not observed by any claim), and the fields of
`self.stats`, `self.url_counter` and `self.stop_event`. -/
structure CrawlState where
  pending : List (String × ℚ)
  completed : List String
  failed : List String
  data : List String
  url_counter : ℕ
  urls_scraped : ℕ
  urls_failed : ℕ
  errors : List String
  start_time : ℚ
  last_new_url_time : ℚ
  stop : Bool
  deriving Repr, DecidableEq

/-- State after `__init__` at wall-clock time `t0` against an empty
Redis instance. -/
def initState (t0 : ℚ) : CrawlState :=
  ⟨[], [], [], [], 0, 0, 0, [], t0, t0, false⟩

/-- A fetched JSON payload, abstracted to the two observations the
worker makes of it: its Python truthiness (`if data:`) and the links
`extract_urls_from_response` produces from it. -/
structure Payload where
  truthy : Bool
  links : List String
  deriving Repr, DecidableEq

/-- Outcome of one HTTP attempt inside `scrape_url`: a decoded payload,
a `requests.exceptions.RequestException` (retryable branch), or any
other exception (the `except Exception` branch). -/
inductive AttemptOutcome
  | success (p : Payload)
  | requestError (e : String)
  | otherError (e : String)

/-- Observable actions of the fetch and worker loops: the politeness
sleep, an HTTP request for a given attempt index, the backoff sleep with
its duration, and the 1-second idle/error sleep of the worker loop. -/
inductive Event
  | sleepDelay
  | request (attempt : ℕ)
  | backoffSleep (t : ℚ)
  | sleepOne
  deriving Repr, DecidableEq

/-- `self.max_retries`. -/
def max_retries : ℕ := 3

/-- `self.backoff_factor`. -/
def backoff_factor : ℚ := 2

/-- `self.no_new_urls_timeout` (seconds). -/
def no_new_urls_timeout : ℚ := 30

/-- The `for attempt in range(self.max_retries)` loop of `scrape_url`.
`fuel` counts the remaining loop iterations, `attempt` is the Python
loop variable.  Success increments `urls_scraped` and returns the data;
a `RequestException` backs off and retries unless this was the last
attempt, in which case `urls_failed` is incremented, an error entry is
appended and the URL is SADDed to the failed set; any other exception
appends an error entry and returns `None` immediately. -/
def scrape_go (url : String) (outcomes : ℕ → AttemptOutcome) :
    ℕ → ℕ → CrawlState → Option Payload × CrawlState × List Event
  | 0, _, st => (none, st, [])
  | fuel + 1, attempt, st =>
    match outcomes attempt with
    | .success p =>
      (some p, { st with urls_scraped := st.urls_scraped + 1 },
        [.sleepDelay, .request attempt])
    | .requestError e =>
      if attempt < max_retries - 1 then
        let r := scrape_go url outcomes fuel (attempt + 1) st
        (r.1, r.2.1,
          .sleepDelay :: .request attempt ::
            .backoffSleep (backoff_factor ^ attempt) :: r.2.2)
      else
        (none,
          { st with
            urls_failed := st.urls_failed + 1,
            errors := st.errors ++ [url ++ ": " ++ e],
            failed := sadd st.failed url },
          [.sleepDelay, .request attempt])
    | .otherError e =>
      (none, { st with errors := st.errors ++ [url ++ ": " ++ e] },
        [.sleepDelay, .request attempt])

/-- `scrape_url`: run the attempt loop from attempt 0. -/
def scrape_url (url : String) (outcomes : ℕ → AttemptOutcome)
    (st : CrawlState) : Option Payload × CrawlState × List Event :=
  scrape_go url outcomes max_retries 0 st

/-- The `for url in urls` loop of `add_new_urls`: a URL is inserted only
if it is neither in the completed set nor already pending; insertion
increments the shared `url_counter` and ZADDs the URL with its computed
score.  The failed set is not consulted. -/
def add_new_urls_go (root : String) (depth : ℕ) :
    List String → CrawlState → ℕ → CrawlState × ℕ
  | [], st, n => (st, n)
  | url :: rest, st, n =>
    if ¬ (url ∈ st.completed) ∧ ¬ (zscore st.pending url).isSome then
      let counter := st.url_counter + 1
      add_new_urls_go root depth rest
        { st with
          url_counter := counter,
          pending := zadd st.pending url
            (calculate_url_score root url depth counter) }
        (n + 1)
    else
      add_new_urls_go root depth rest st n

/-- `add_new_urls(urls, depth)` at wall-clock time `now`: run the loop,
then update `stats["last_new_url_time"]` only if at least one URL was
added; returns the new state and `new_urls_count`. -/
def add_new_urls (root : String) (st : CrawlState) (urls : List String)
    (depth : ℕ) (now : ℚ) : CrawlState × ℕ :=
  let r := add_new_urls_go root depth urls st 0
  (if 0 < r.2 then { r.1 with last_new_url_time := now } else r.1, r.2)

/-- Environment consumed by one iteration of `worker_thread`: either the
iteration proceeds normally (`now` is the `time.time()` reading of the
idle check, `outcomes` the HTTP outcomes, `now2` the `time.time()`
reading taken by `add_new_urls`), or some operation in the body raises
an exception, which the worker's blanket `except Exception` catches at
iteration granularity. -/
inductive IterEnv
  | normal (now : ℚ) (outcomes : ℕ → AttemptOutcome) (now2 : ℚ)
  | raised (e : String)

/-- Whether the `while not self.stop_event.is_set()` loop continues. -/
inductive IterResult
  | continueLoop
  | exitLoop
  deriving Repr, DecidableEq

/-- One iteration of `worker_thread`: check the stop event; ZPOPMIN the
frontier; on empty, stop if no new URL arrived within the idle timeout,
else sleep 1s; on an item, skip it if already completed, else scrape it;
on truthy data, save the record, recover the depth from the popped
score, enqueue the extracted links at `depth + 1` and SADD the URL to
the completed set.  A raised exception is logged and answered by a
1-second sleep, leaving the state unchanged. -/
def worker_iteration (root : String) (st : CrawlState) (env : IterEnv) :
    CrawlState × IterResult × List Event :=
  if st.stop then (st, .exitLoop, [])
  else
    match env with
    | .raised _ => (st, .continueLoop, [.sleepOne])
    | .normal now outcomes now2 =>
      match zpopmin st.pending with
      | none =>
        if now - st.last_new_url_time > no_new_urls_timeout then
          ({ st with stop := true }, .exitLoop, [])
        else
          (st, .continueLoop, [.sleepOne])
      | some (item, rest) =>
        let st1 := { st with pending := rest }
        if item.1 ∈ st1.completed then
          (st1, .continueLoop, [])
        else
          let r := scrape_url item.1 outcomes st1
          match r.1 with
          | none => (r.2.1, .continueLoop, r.2.2)
          | some p =>
            if p.truthy then
              let st2 := { r.2.1 with data := sadd r.2.1.data item.1 }
              let depth := (recovered_depth item.2).toNat + 1
              let a := add_new_urls root st2 p.links depth now2
              ({ a.1 with completed := sadd a.1.completed item.1 },
                .continueLoop, r.2.2)
            else
              (r.2.1, .continueLoop, r.2.2)

/-- The seeding loop of `initialize_redis`: each seed is scored at depth
0 (incrementing the shared counter) and ZADDed to the pending queue. -/
def init_redis_go (root : String) : List String → CrawlState → CrawlState
  | [], st => st
  | u :: rest, st =>
    let counter := st.url_counter + 1
    init_redis_go root rest
      { st with
        url_counter := counter,
        pending := zadd st.pending u (calculate_url_score root u 0 counter) }

/-- `initialize_redis(seed_urls)`: DELETE the pending queue, the
completed set and the failed set, delete every `poké:data:*` record,
then add the seeds at depth 0. -/
def init_redis (root : String) (st : CrawlState) (seeds : List String) :
    CrawlState :=
  init_redis_go root seeds
    { st with pending := [], completed := [], failed := [], data := [] }

/-- States reachable in a crawl run: `run(seed_urls)` first calls
`initialize_redis`, then worker iterations interleave; each step is one
whole iteration of `worker_thread` under an arbitrary environment. -/
inductive Reachable (root : String) (seeds : List String) (t0 : ℚ) :
    CrawlState → Prop
  | init : Reachable root seeds t0 (init_redis root (initState t0) seeds)
  | step (st : CrawlState) (env : IterEnv) :
      Reachable root seeds t0 st →
      Reachable root seeds t0 (worker_iteration root st env).1

/-! Theorems.  The `attribute` line restores default reducibility to the
Batteries rational-arithmetic operations (they are `@[irreducible]` purely
as an elaboration-performance measure) so that `decide` can evaluate
concrete crawler states. -/

attribute [local semireducible] Rat.add Rat.mul Rat.inv Rat.sub

/-- C2 counterexample: the claim asserts depth recovery is exact for
every counter value, but already at depth 0 with counter 10000 the score
`p * 100 + 0 + 10.0` recovers depth 1, not 0. -/
theorem C2_counterexample :
    recovered_depth (calculate_url_score "r/" "r/a" 0 10000) = 1 ∧
    recovered_depth (calculate_url_score "r/" "r/a" 0 10000) ≠ 0 := by
  decide

/-- C2 amended: `int((score % 100) // 10)` applied to
`score = type_priority * 100 + d * 10 + c * 0.001` recovers exactly `d`,
provided `d ≤ 9` and the sequence counter satisfies `c ≤ 9999` (so that
`c * 0.001 < 10` cannot spill into the depth digit). -/
theorem C2_amended (root url : String) (d c : ℕ) (hd : d ≤ 9)
    (hc : c ≤ 9999) :
    recovered_depth (calculate_url_score root url d c) = d := by
  have hd' : (d : ℚ) ≤ 9 := by exact_mod_cast hd
  have hc' : (c : ℚ) ≤ 9999 := by exact_mod_cast hc
  have hd0 : (0 : ℚ) ≤ (d : ℚ) := Nat.cast_nonneg d
  have hc0 : (0 : ℚ) ≤ (c : ℚ) := Nat.cast_nonneg c
  set p : ℕ := type_priorities (resource_type root url) with hp
  have hp0 : (0 : ℚ) ≤ (p : ℚ) := Nat.cast_nonneg p
  have h1 : ⌊((p : ℚ) * 100 + (d : ℚ) * 10 + (c : ℚ) / 1000) / 100⌋ = (p : ℤ) := by
    rw [Int.floor_eq_iff]
    constructor
    · rw [le_div_iff₀ (by norm_num : (0 : ℚ) < 100)]
      push_cast
      linarith
    · rw [div_lt_iff₀ (by norm_num : (0 : ℚ) < 100)]
      push_cast
      linarith
  have h2 : ⌊((d : ℚ) * 10 + (c : ℚ) / 1000) / 10⌋ = (d : ℤ) := by
    rw [Int.floor_eq_iff]
    constructor
    · rw [le_div_iff₀ (by norm_num : (0 : ℚ) < 10)]
      push_cast
      linarith
    · rw [div_lt_iff₀ (by norm_num : (0 : ℚ) < 10)]
      push_cast
      linarith
  unfold recovered_depth pymod calculate_url_score
  rw [← hp, h1]
  have h3 : (p : ℚ) * 100 + (d : ℚ) * 10 + (c : ℚ) / 1000 - 100 * ((p : ℤ) : ℚ)
      = (d : ℚ) * 10 + (c : ℚ) / 1000 := by
    push_cast
    ring
  rw [h3, h2]

/-- C3 counterexample: with unbounded sequence counters neither stated
inequality holds: at counter 10001 a depth-0 URL scores no less than the
same URL at depth 1 with counter 1, and a films URL at counter 400001
scores no less than a species URL at counter 1. -/
theorem C3_counterexample :
    ¬ (calculate_url_score "r/" "r/a" 0 10001 <
        calculate_url_score "r/" "r/a" 1 1) ∧
    ¬ (calculate_url_score "r/" "r/films/1/" 0 400001 <
        calculate_url_score "r/" "r/species/1/" 0 1) := by
  decide

/-- C3 amended: depth strictly increases the score for the same resource
type whenever the depth-0 counter is below `10000 + c'`, and type
priority (films = 1 versus species = 5) dominates whenever the films
counter is below `400000 + s2`; both bounds are exact. -/
theorem C3_amended :
    (∀ (root url : String) (c c' : ℕ), c < 10000 + c' →
        calculate_url_score root url 0 c < calculate_url_score root url 1 c') ∧
    (∀ (root u1 u2 : String) (s1 s2 : ℕ),
        resource_type root u1 = "films" → resource_type root u2 = "species" →
        s1 < 400000 + s2 →
        calculate_url_score root u1 0 s1 < calculate_url_score root u2 0 s2) := by
  constructor
  · intro root url c c' h
    have h' : (c : ℚ) < 10000 + (c' : ℚ) := by exact_mod_cast h
    unfold calculate_url_score
    push_cast
    linarith
  · intro root u1 u2 s1 s2 h1 h2 h
    have h' : (s1 : ℚ) < 400000 + (s2 : ℚ) := by exact_mod_cast h
    have e1 : type_priorities "films" = 1 := rfl
    have e2 : type_priorities "species" = 5 := rfl
    unfold calculate_url_score
    rw [h1, h2, e1, e2]
    push_cast
    linarith

/-- C2 witness: at depth 3 with counter 7 the recovery is exact. -/
theorem C2_witness :
    recovered_depth (calculate_url_score "r/" "r/a" 3 7) = ((3 : ℕ) : ℤ) :=
  C2_amended "r/" "r/a" 3 7 (by decide) (by decide)

/-- C3 witness: concrete instances of both amended inequalities. -/
theorem C3_witness :
    calculate_url_score "r/" "r/a" 0 5 < calculate_url_score "r/" "r/a" 1 0 ∧
    calculate_url_score "r/" "r/films/1/" 0 3 <
      calculate_url_score "r/" "r/species/4/" 0 4 :=
  ⟨C3_amended.1 "r/" "r/a" 5 0 (by decide),
   C3_amended.2 "r/" "r/films/1/" "r/species/4/" 3 4 (by decide) (by decide)
     (by decide)⟩

/-- C4: with `max_retries = 3`, if attempts 0, 1 and 2 all raise a
retryable `RequestException` then `scrape_url` returns `None`, SADDs the
URL to the failed set, increments `urls_failed`, and its event trace is
exactly: politeness sleep, request 0, backoff `b^0`, politeness sleep,
request 1, backoff `b^1`, politeness sleep, request 2 — so a fourth
request never happens (regardless of what attempt 3 would return), every
attempt is preceded by the politeness delay, and consecutive attempts
are separated by a backoff of `backoff_factor ^ attempt` seconds. -/
theorem C4_retry_limit (url : String) (outcomes : ℕ → AttemptOutcome)
    (st : CrawlState) (e0 e1 e2 : String)
    (h0 : outcomes 0 = .requestError e0) (h1 : outcomes 1 = .requestError e1)
    (h2 : outcomes 2 = .requestError e2) :
    (scrape_url url outcomes st).1 = none ∧
    (scrape_url url outcomes st).2.1.failed = sadd st.failed url ∧
    (scrape_url url outcomes st).2.1.urls_failed = st.urls_failed + 1 ∧
    Event.request 3 ∉ (scrape_url url outcomes st).2.2 ∧
    (scrape_url url outcomes st).2.2 =
      [.sleepDelay, .request 0, .backoffSleep (backoff_factor ^ 0),
       .sleepDelay, .request 1, .backoffSleep (backoff_factor ^ 1),
       .sleepDelay, .request 2] := by
  simp [scrape_url, scrape_go, h0, h1, h2, max_retries]

/-- C4 witness: a URL whose three attempts all fail with a simulated 503
(and whose fourth attempt would succeed) is recorded as failed with the
stated trace. -/
theorem C4_witness :
    (scrape_url "r/x"
        (fun i => if i ≤ 2 then .requestError "503" else .success ⟨true, []⟩)
        (initState 0)).1 = none ∧
    (scrape_url "r/x"
        (fun i => if i ≤ 2 then .requestError "503" else .success ⟨true, []⟩)
        (initState 0)).2.1.failed = sadd (initState 0).failed "r/x" ∧
    (scrape_url "r/x"
        (fun i => if i ≤ 2 then .requestError "503" else .success ⟨true, []⟩)
        (initState 0)).2.1.urls_failed = (initState 0).urls_failed + 1 ∧
    Event.request 3 ∉ (scrape_url "r/x"
        (fun i => if i ≤ 2 then .requestError "503" else .success ⟨true, []⟩)
        (initState 0)).2.2 ∧
    (scrape_url "r/x"
        (fun i => if i ≤ 2 then .requestError "503" else .success ⟨true, []⟩)
        (initState 0)).2.2 =
      [.sleepDelay, .request 0, .backoffSleep (backoff_factor ^ 0),
       .sleepDelay, .request 1, .backoffSleep (backoff_factor ^ 1),
       .sleepDelay, .request 2] :=
  C4_retry_limit "r/x" _ (initState 0) "503" "503" "503" rfl rfl rfl

/-- C5 counterexample: a non-network exception on the first attempt (the
`except Exception` branch of `scrape_url`, e.g. a decode failure) is a
terminal failure, yet the URL is not added to the failed set and
`urls_failed` is not incremented — only an error entry is recorded — so
the URL ends up in neither the completed set nor the failed set,
refuting the claim. -/
theorem C5_counterexample :
    (scrape_url "r/x" (fun _ => .otherError "decode") (initState 0)).1 = none ∧
    (scrape_url "r/x" (fun _ => .otherError "decode") (initState 0)).2.1.failed
      = [] ∧
    (scrape_url "r/x" (fun _ => .otherError "decode")
      (initState 0)).2.1.urls_failed = 0 ∧
    (scrape_url "r/x" (fun _ => .otherError "decode")
      (initState 0)).2.1.completed = [] ∧
    (scrape_url "r/x" (fun _ => .otherError "decode") (initState 0)).2.1.errors
      = ["r/x: decode"] := by
  decide

/-- C5 amended: a fetch that fails terminally by exhausting its three
retryable attempts is marked failed in the frontier store and counted
and logged in the stats; but a non-network exception while decoding,
although it fails immediately, only records an error entry — the URL is
neither added to the failed set nor counted in `urls_failed`, so it ends
up in neither the completed nor the failed set. -/
theorem C5_amended (url : String) (outcomes : ℕ → AttemptOutcome)
    (st : CrawlState) (e0 e1 e2 e : String) :
    (outcomes 0 = .requestError e0 → outcomes 1 = .requestError e1 →
      outcomes 2 = .requestError e2 →
      (scrape_url url outcomes st).1 = none ∧
      (scrape_url url outcomes st).2.1.failed = sadd st.failed url ∧
      (scrape_url url outcomes st).2.1.urls_failed = st.urls_failed + 1 ∧
      (scrape_url url outcomes st).2.1.errors
        = st.errors ++ [url ++ ": " ++ e2]) ∧
    (outcomes 0 = .otherError e →
      (scrape_url url outcomes st).1 = none ∧
      (scrape_url url outcomes st).2.1.failed = st.failed ∧
      (scrape_url url outcomes st).2.1.urls_failed = st.urls_failed ∧
      (scrape_url url outcomes st).2.1.completed = st.completed ∧
      (scrape_url url outcomes st).2.1.errors
        = st.errors ++ [url ++ ": " ++ e]) := by
  constructor
  · intro h0 h1 h2
    simp [scrape_url, scrape_go, h0, h1, h2, max_retries]
  · intro h0
    simp [scrape_url, scrape_go, h0, max_retries]

/-- C5 witness: both halves of the amended claim at concrete inputs. -/
theorem C5_witness :
    ((scrape_url "r/y" (fun _ => .requestError "503") (initState 0)).2.1.failed
        = sadd (initState 0).failed "r/y" ∧
      (scrape_url "r/y" (fun _ => .requestError "503")
        (initState 0)).2.1.urls_failed = (initState 0).urls_failed + 1) ∧
    ((scrape_url "r/z" (fun _ => .otherError "boom") (initState 0)).2.1.failed
        = (initState 0).failed ∧
      (scrape_url "r/z" (fun _ => .otherError "boom")
        (initState 0)).2.1.urls_failed = (initState 0).urls_failed) :=
  ⟨⟨((C5_amended "r/y" _ (initState 0) "503" "503" "503" "503").1
      rfl rfl rfl).2.1,
    ((C5_amended "r/y" _ (initState 0) "503" "503" "503" "503").1
      rfl rfl rfl).2.2.1⟩,
   ⟨((C5_amended "r/z" _ (initState 0) "x" "x" "x" "boom").2 rfl).2.1,
    ((C5_amended "r/z" _ (initState 0) "x" "x" "x" "boom").2 rfl).2.2.1⟩⟩

/-- When the stop event is set, the loop head exits at once. -/
theorem worker_stop (root : String) (st : CrawlState) (env : IterEnv)
    (h : st.stop = true) :
    worker_iteration root st env = (st, .exitLoop, []) := by
  unfold worker_iteration
  rw [h]
  simp

/-- A raised exception in the body is caught: state unchanged, one-second
sleep, loop continues. -/
theorem worker_raised (root : String) (st : CrawlState) (e : String)
    (h : st.stop = false) :
    worker_iteration root st (.raised e) = (st, .continueLoop, [.sleepOne]) := by
  unfold worker_iteration
  rw [h]
  simp

/-- Behaviour of an iteration that pops an empty frontier. -/
theorem worker_empty (root : String) (st : CrawlState) (now now2 : ℚ)
    (outcomes : ℕ → AttemptOutcome) (h : st.stop = false)
    (hpop : zpopmin st.pending = none) :
    worker_iteration root st (.normal now outcomes now2)
      = if now - st.last_new_url_time > no_new_urls_timeout
          then ({ st with stop := true }, .exitLoop, [])
          else (st, .continueLoop, [.sleepOne]) := by
  unfold worker_iteration
  rw [h, hpop]
  simp

/-- An iteration that pops an item always continues the loop, whatever
the fetch outcome. -/
theorem worker_some_continues (root : String) (st : CrawlState)
    (now now2 : ℚ) (outcomes : ℕ → AttemptOutcome)
    (item : String × ℚ) (rest : List (String × ℚ)) (h : st.stop = false)
    (hpop : zpopmin st.pending = some (item, rest)) :
    (worker_iteration root st (.normal now outcomes now2)).2.1
      = .continueLoop := by
  unfold worker_iteration
  rw [h, hpop]
  simp only [Bool.false_eq_true, if_false]
  split
  · rfl
  · split
    · rfl
    · split
      · rfl
      · rfl

/-- C6 counterexample: an exception raised in the worker body — however
unrecoverable — does not exit the loop: the single blanket
`except Exception` handler logs it, sleeps one second and continues, so
the claimed exit-on-internal-error behaviour does not exist. -/
theorem C6_counterexample :
    worker_iteration "r/" (initState 0) (.raised "unexpected internal fault")
      = (initState 0, .continueLoop, [.sleepOne]) := by
  rfl

/-- C6 amended: the worker loop exits only on the stop signal observed
at the top of the loop or on the idle-timeout branch (which sets the
stop signal); every exception raised in the body — a frontier-store
failure or any other internal error — is logged and answered by a
one-second sleep and a retry, leaving the state unchanged, and never
exits the loop. -/
theorem C6_amended (root : String) (st : CrawlState) (env : IterEnv) :
    (st.stop = true → worker_iteration root st env = (st, .exitLoop, [])) ∧
    (st.stop = false → ∀ e, env = .raised e →
        worker_iteration root st env = (st, .continueLoop, [.sleepOne])) ∧
    (st.stop = false → (worker_iteration root st env).2.1 = .exitLoop →
        ∃ now outcomes now2, env = .normal now outcomes now2 ∧
          zpopmin st.pending = none ∧
          now - st.last_new_url_time > no_new_urls_timeout ∧
          (worker_iteration root st env).1.stop = true) := by
  refine ⟨fun h => worker_stop root st env h, ?_, ?_⟩
  · intro h e he
    subst he
    exact worker_raised root st e h
  · intro h hx
    cases env with
    | raised e =>
      rw [worker_raised root st e h] at hx
      simp at hx
    | normal now outcomes now2 =>
      refine ⟨now, outcomes, now2, rfl, ?_⟩
      cases hpop : zpopmin st.pending with
      | some pr =>
        exfalso
        obtain ⟨item, rest⟩ := pr
        rw [worker_some_continues root st now now2 outcomes item rest h hpop]
          at hx
        simp at hx
      | none =>
        by_cases ht : now - st.last_new_url_time > no_new_urls_timeout
        · refine ⟨rfl, ht, ?_⟩
          rw [worker_empty root st now now2 outcomes h hpop, if_pos ht]
        · exfalso
          rw [worker_empty root st now now2 outcomes h hpop, if_neg ht] at hx
          simp at hx

/-- C6 witness: the stop-signal exit and the sleep-and-retry answer to a
raised frontier-store failure, at concrete states. -/
theorem C6_witness :
    worker_iteration "r/" { initState 0 with stop := true } (.raised "db")
      = ({ initState 0 with stop := true }, .exitLoop, []) ∧
    worker_iteration "r/" (initState 0) (.raised "store down")
      = (initState 0, .continueLoop, [.sleepOne]) :=
  ⟨(C6_amended "r/" { initState 0 with stop := true } (.raised "db")).1 rfl,
   (C6_amended "r/" (initState 0) (.raised "store down")).2.1 rfl
     "store down" rfl⟩

/-- C8: on an empty pop with the stop event clear, the worker sets the
global stop and exits exactly when the time since
`stats["last_new_url_time"]` exceeds the 30-second idle timeout;
otherwise it sleeps one second and retries with the state — in
particular the stop flag — unchanged. -/
theorem C8_idle_timeout (root : String) (st : CrawlState) (now now2 : ℚ)
    (outcomes : ℕ → AttemptOutcome) (hstop : st.stop = false)
    (hempty : zpopmin st.pending = none) :
    ((now - st.last_new_url_time > no_new_urls_timeout) →
        worker_iteration root st (.normal now outcomes now2)
          = ({ st with stop := true }, .exitLoop, [])) ∧
    (¬ (now - st.last_new_url_time > no_new_urls_timeout) →
        worker_iteration root st (.normal now outcomes now2)
          = (st, .continueLoop, [.sleepOne])) := by
  constructor
  · intro ht
    rw [worker_empty root st now now2 outcomes hstop hempty, if_pos ht]
  · intro ht
    rw [worker_empty root st now now2 outcomes hstop hempty, if_neg ht]

/-- C8 witness: with the last discovery at time 0, an empty pop at time
31 stops the crawl, while an empty pop at time 30 only sleeps. -/
theorem C8_witness :
    worker_iteration "r/" (initState 0) (.normal 31 (fun _ => .otherError "e") 0)
      = ({ initState 0 with stop := true }, .exitLoop, []) ∧
    worker_iteration "r/" (initState 0) (.normal 30 (fun _ => .otherError "e") 0)
      = (initState 0, .continueLoop, [.sleepOne]) :=
  ⟨(C8_idle_timeout "r/" (initState 0) 31 0 (fun _ => .otherError "e")
      rfl rfl).1 (by decide),
   (C8_idle_timeout "r/" (initState 0) 30 0 (fun _ => .otherError "e")
      rfl rfl).2 (by decide)⟩

/-- ZSCORE after ZADD: the added member reports the new score, every
other member is unaffected. -/
theorem zscore_zadd (l : List (String × ℚ)) (u : String) (s : ℚ) (v : String) :
    zscore (zadd l u s) v = if v = u then some s else zscore l v := by
  induction l with
  | nil =>
    simp only [zadd, zscore]
    by_cases h : v = u
    · rw [if_pos h.symm, if_pos h]
    · rw [if_neg (fun hh => h hh.symm), if_neg h]
  | cons p rest ih =>
    obtain ⟨a, b⟩ := p
    simp only [zadd]
    by_cases h1 : a = u
    · rw [if_pos h1]
      simp only [zscore]
      by_cases h2 : v = u
      · rw [if_pos h2.symm, if_pos h2]
      · have hav : ¬ a = v := fun hh => h2 (hh.symm.trans h1)
        rw [if_neg (fun hh => h2 hh.symm), if_neg h2, if_neg hav]
    · rw [if_neg h1]
      simp only [zscore]
      by_cases h2 : a = v
      · have hvu : ¬ v = u := fun hh => h1 (h2.trans hh)
        rw [if_pos h2, if_neg hvu, if_pos h2]
      · rw [if_neg h2, ih]
        by_cases h3 : v = u
        · rw [if_pos h3, if_pos h3]
        · rw [if_neg h3, if_neg h3, if_neg h2]

/-- C7: calling `add_new_urls` on URLs that are each already completed
or already pending is a no-op — the returned state is the input state
(so no score changes, no `url_counter` increment, no
`last_new_url_time` update) and the reported insertion count is 0. -/
theorem C7_enqueue_noop (root : String) (st : CrawlState) (urls : List String)
    (depth : ℕ) (now : ℚ)
    (h : ∀ u ∈ urls, u ∈ st.completed ∨ (zscore st.pending u).isSome = true) :
    add_new_urls root st urls depth now = (st, 0) := by
  have go : ∀ (l : List String),
      (∀ u ∈ l, u ∈ st.completed ∨ (zscore st.pending u).isSome = true) →
      ∀ n, add_new_urls_go root depth l st n = (st, n) := by
    intro l
    induction l with
    | nil => intro _ n; rfl
    | cons u rest ih =>
      intro hl n
      have hu := hl u (List.mem_cons_self u rest)
      have hcond :
          ¬ (¬ (u ∈ st.completed) ∧ ¬ (zscore st.pending u).isSome = true) := by
        rcases hu with h1 | h1
        · intro hh
          exact hh.1 h1
        · intro hh
          exact hh.2 h1
      unfold add_new_urls_go
      rw [if_neg hcond]
      exact ih (fun v hv => hl v (List.mem_cons_of_mem u hv)) n
  unfold add_new_urls
  rw [go urls h 0]
  simp

/-- Concrete state for the C7 witness: one pending and one completed URL. -/
def c7state : CrawlState :=
  { initState 0 with pending := [("r/a", 5)], completed := ["r/b"] }

/-- C7 witness: re-enqueueing a pending URL and a completed URL changes
nothing and reports zero insertions. -/
theorem C7_witness : add_new_urls "r/" c7state ["r/a", "r/b"] 1 99 = (c7state, 0) :=
  C7_enqueue_noop "r/" c7state ["r/a", "r/b"] 1 99 (by decide)

/-- One terminal decode failure as recorded by `scrape_url` (helper for
the C9 counterexample). -/
def errIter (st : CrawlState) : CrawlState :=
  (scrape_url "r/x" (fun _ => .otherError "boom") st).2.1

/-- C9 counterexample: the error log is not bounded and nothing is
evicted: after six recorded failures it holds six entries and the oldest
entry is still present, refuting the claimed most-recent-N retention
(the only bound the program exhibits is the final report printing the
last 5 entries). -/
theorem C9_counterexample :
    (errIter (errIter (errIter (errIter (errIter (errIter
        (initState 0))))))).errors.length = 6 ∧
    (errIter (errIter (errIter (errIter (errIter (errIter
        (initState 0))))))).errors.head? = some "r/x: boom" := by
  decide

/-- C9 amended: the error log grows without bound — each terminal
failure (retry exhaustion or decode exception) appends exactly one entry
at the end of `stats["errors"]` and no entry is ever evicted. -/
theorem C9_amended (url : String) (outcomes : ℕ → AttemptOutcome)
    (st : CrawlState) (e0 e1 e2 e : String) :
    (outcomes 0 = .requestError e0 → outcomes 1 = .requestError e1 →
      outcomes 2 = .requestError e2 →
      (scrape_url url outcomes st).2.1.errors
          = st.errors ++ [url ++ ": " ++ e2] ∧
      (scrape_url url outcomes st).2.1.errors.length
          = st.errors.length + 1) ∧
    (outcomes 0 = .otherError e →
      (scrape_url url outcomes st).2.1.errors
          = st.errors ++ [url ++ ": " ++ e] ∧
      (scrape_url url outcomes st).2.1.errors.length
          = st.errors.length + 1) := by
  constructor
  · intro h0 h1 h2
    simp [scrape_url, scrape_go, h0, h1, h2, max_retries]
  · intro h0
    simp [scrape_url, scrape_go, h0, max_retries]

/-- C9 witness: both appending behaviours at concrete inputs. -/
theorem C9_witness :
    ((scrape_url "r/y" (fun _ => .requestError "503") (initState 0)).2.1.errors
        = (initState 0).errors ++ ["r/y" ++ ": " ++ "503"] ∧
      (scrape_url "r/y" (fun _ => .requestError "503")
        (initState 0)).2.1.errors.length = (initState 0).errors.length + 1) ∧
    ((scrape_url "r/z" (fun _ => .otherError "boom") (initState 0)).2.1.errors
        = (initState 0).errors ++ ["r/z" ++ ": " ++ "boom"] ∧
      (scrape_url "r/z" (fun _ => .otherError "boom")
        (initState 0)).2.1.errors.length = (initState 0).errors.length + 1) :=
  ⟨(C9_amended "r/y" _ (initState 0) "503" "503" "503" "503").1 rfl rfl rfl,
   (C9_amended "r/z" _ (initState 0) "x" "x" "x" "boom").2 rfl⟩

/-- The seeding loop never touches the completed set, the failed set or
the data records. -/
theorem init_go_sets (root : String) :
    ∀ (seeds : List String) (st : CrawlState),
      (init_redis_go root seeds st).completed = st.completed ∧
      (init_redis_go root seeds st).failed = st.failed ∧
      (init_redis_go root seeds st).data = st.data := by
  intro seeds
  induction seeds with
  | nil =>
    intro st
    exact ⟨rfl, rfl, rfl⟩
  | cons u rest ih =>
    intro st
    unfold init_redis_go
    exact ih _

/-- Membership in the queue built by the seeding loop: exactly the seeds
plus whatever was already pending. -/
theorem init_go_mem (root : String) :
    ∀ (seeds : List String) (st : CrawlState) (u : String),
      (zscore (init_redis_go root seeds st).pending u).isSome = true ↔
        u ∈ seeds ∨ (zscore st.pending u).isSome = true := by
  intro seeds
  induction seeds with
  | nil =>
    intro st u
    simp [init_redis_go]
  | cons sd rest ih =>
    intro st u
    unfold init_redis_go
    rw [ih]
    constructor
    · rintro (h | h)
      · exact Or.inl (List.mem_cons_of_mem sd h)
      · rw [zscore_zadd] at h
        by_cases hu : u = sd
        · exact Or.inl (hu ▸ List.mem_cons_self sd rest)
        · rw [if_neg hu] at h
          exact Or.inr h
    · rintro (h | h)
      · rcases List.mem_cons.mp h with h1 | h1
        · right
          rw [zscore_zadd, if_pos h1]
          rfl
        · left
          exact h1
      · right
        rw [zscore_zadd]
        by_cases hu : u = sd
        · rw [if_pos hu]
          rfl
        · rw [if_neg hu]
          exact h

/-- Every score assigned by the seeding loop is a depth-0 score. -/
theorem init_go_score (root : String) :
    ∀ (seeds : List String) (st : CrawlState),
      (∀ u sc, zscore st.pending u = some sc →
        ∃ c, sc = calculate_url_score root u 0 c) →
      ∀ u sc, zscore (init_redis_go root seeds st).pending u = some sc →
        ∃ c, sc = calculate_url_score root u 0 c := by
  intro seeds
  induction seeds with
  | nil =>
    intro st hst u sc h
    exact hst u sc h
  | cons sd rest ih =>
    intro st hst u sc h
    unfold init_redis_go at h
    refine ih _ ?_ u sc h
    intro v s hv
    rw [zscore_zadd] at hv
    by_cases hvsd : v = sd
    · subst hvsd
      rw [if_pos rfl] at hv
      exact ⟨st.url_counter + 1, (Option.some_injective ℚ hv).symm⟩
    · rw [if_neg hvsd] at hv
      exact hst v s hv

/-- C10: `initialize_redis` unconditionally clears the pending queue,
the completed set, the failed set and every stored data record of any
prior run, and afterwards the pending queue holds exactly the seed URLs,
each scored at depth 0. -/
theorem C10_initialization (root : String) (st : CrawlState)
    (seeds : List String) :
    (init_redis root st seeds).completed = [] ∧
    (init_redis root st seeds).failed = [] ∧
    (init_redis root st seeds).data = [] ∧
    (∀ u, (zscore (init_redis root st seeds).pending u).isSome = true ↔
        u ∈ seeds) ∧
    (∀ u sc, zscore (init_redis root st seeds).pending u = some sc →
        ∃ c, sc = calculate_url_score root u 0 c) := by
  unfold init_redis
  refine ⟨(init_go_sets root seeds _).1, (init_go_sets root seeds _).2.1,
    (init_go_sets root seeds _).2.2, ?_, ?_⟩
  · intro u
    rw [init_go_mem]
    simp [zscore]
  · intro u sc h
    refine init_go_score root seeds _ ?_ u sc h
    intro v s hv
    simp [zscore] at hv

/-- Concrete dirty pre-state for the C10 witness. -/
def c10dirty : CrawlState :=
  { initState 0 with
    pending := [("x", 1)], completed := ["old"], failed := ["bad"],
    data := ["rec"] }

/-- C10 witness: after initialization from a dirty state the dedup sets
and data are empty, the seed is pending and the stale URL is gone. -/
theorem C10_witness :
    (init_redis "r/" c10dirty ["r/a"]).completed = [] ∧
    (init_redis "r/" c10dirty ["r/a"]).failed = [] ∧
    (init_redis "r/" c10dirty ["r/a"]).data = [] ∧
    (zscore (init_redis "r/" c10dirty ["r/a"]).pending "r/a").isSome = true ∧
    ¬ (zscore (init_redis "r/" c10dirty ["r/a"]).pending "x").isSome = true :=
  ⟨(C10_initialization "r/" c10dirty ["r/a"]).1,
   (C10_initialization "r/" c10dirty ["r/a"]).2.1,
   (C10_initialization "r/" c10dirty ["r/a"]).2.2.1,
   ((C10_initialization "r/" c10dirty ["r/a"]).2.2.2.1 "r/a").mpr (by decide),
   fun hx =>
     absurd (((C10_initialization "r/" c10dirty ["r/a"]).2.2.2.1 "x").mp hx)
       (by decide)⟩

/-- Environment of the first C1 step: every attempt for the popped URL
fails with a 503 (`requests` raises a retryable `RequestException`). -/
def c1env1 : IterEnv := .normal 0 (fun _ => .requestError "503") 0

/-- Environment of the second C1 step: the fetch succeeds and the
decoded payload's reference arrays contain the previously failed URL. -/
def c1env2 : IterEnv := .normal 0 (fun _ => .success ⟨true, ["r/a"]⟩) 0

/-- C1 trace, state 0: a run seeded with two URLs. -/
def c1s0 : CrawlState := init_redis "r/" (initState 0) ["r/a", "r/b"]

/-- C1 trace, state 1: the first worker iteration pops `r/a` (the lowest
score), exhausts its retries, and marks it failed. -/
def c1s1 : CrawlState := (worker_iteration "r/" c1s0 c1env1).1

/-- C1 trace, state 2: the second iteration pops `r/b`, scrapes it
successfully, and `add_new_urls` re-enqueues the failed `r/a` because it
checks only the completed set and the pending queue — never the failed
set (despite the comment `Check if URL is already completed or failed`
in `add_new_urls`). -/
def c1s2 : CrawlState := (worker_iteration "r/" c1s1 c1env2).1

/-- C1: the claimed pairwise disjointness of pending, completed and
failed is violated by the code on a reachable state: after the two-step
trace above, `r/a` is simultaneously a member of the failed set and of
the pending frontier (and `r/b` is completed), because `add_new_urls`
never consults the failed set before inserting. -/
theorem C1_failed_reenqueued :
    Reachable "r/" ["r/a", "r/b"] 0 c1s2 ∧
    (zscore c1s2.pending "r/a").isSome = true ∧
    "r/a" ∈ c1s2.failed ∧
    "r/b" ∈ c1s2.completed :=
  ⟨Reachable.step c1s1 c1env2 (Reachable.step c1s0 c1env1 Reachable.init),
   by decide, by decide, by decide⟩

end PokeCrawl
